/-
Verification of the unified error-classification layer of the egg-mode
Twitter client (src/error.rs) against its natural-language specification.

The Rust source is shallowly embedded below: each Rust struct/enum becomes a
Lean structure/inductive, each Display impl becomes a rendering function over
an explicit formatter state (so that the fallible `fmt::Result` plumbing of
the source is kept), and each From impl becomes a conversion function.
Components named in the specification but absent from the provided source
files (the error classifier entry point and the field-access helpers of the
common module) are modelled from the specification text; each such definition
says so in its doc comment.
-/
import Mathlib

namespace EggMode

/-! ## Remote error records and collections (src/error.rs lines 27-68) -/

/-- Embeds `TwitterErrorCode`: one error record returned by Twitter, a
message string and a numeric i32 code. -/
structure TwitterErrorCode where
  message : String
  code : Int
deriving DecidableEq, Repr

/-- Embeds `TwitterErrors`: an ordered collection of error records returned
in one response body. -/
structure TwitterErrors where
  errors : List TwitterErrorCode
deriving DecidableEq, Repr

/-! The Display impls write through a `fmt::Formatter` and return
`fmt::Result`.  We embed the formatter as a string accumulator and keep the
`Result` plumbing: every `write!`/`writeln!` returns a result which the
source propagates with `try!`. Writing to the string sink always succeeds,
exactly as in Rust where formatting into a `String` cannot fail. -/

/-- Embeds `std::fmt::Error`, the (payload-free) formatter error type. -/
inductive FmtError where
  | failed
deriving DecidableEq, Repr

/-- Embeds the `fmt::Formatter` sink: the text written so far. -/
structure Formatter where
  out : String
deriving DecidableEq, Repr

/-- One `write!` of a plain string into the formatter.  Writing into a
string sink always succeeds. -/
def writeStr (f : Formatter) (s : String) : Formatter × Except FmtError Unit :=
  (⟨f.out ++ s⟩, Except.ok ())

/-- Embeds `impl fmt::Display for TwitterErrorCode` (lines 64-68): the
record renders as a hash sign, the code, a colon-space, and the message. -/
def TwitterErrorCode.display (e : TwitterErrorCode) : String :=
  "#" ++ Int.repr e.code ++ ": " ++ e.message

/-- The loop body of `impl fmt::Display for TwitterErrors` (lines 38-50):
iterate over the records with a `first` flag; before every record but the
first, `writeln!(f, ",")` writes a comma and a newline; each write is
propagated with `try!` (early return on error). -/
def fmtErrorsLoop : Bool → List TwitterErrorCode → Formatter →
    Formatter × Except FmtError Unit
  | _, [], f => (f, Except.ok ())
  | first, e :: rest, f =>
    let sep := if first then (f, Except.ok ()) else writeStr f ",\n"
    match sep with
    | (f1, Except.ok _) =>
      match writeStr f1 (TwitterErrorCode.display e) with
      | (f2, Except.ok _) => fmtErrorsLoop false rest f2
      | (f2, Except.error err) => (f2, Except.error err)
    | (f1, Except.error err) => (f1, Except.error err)

/-- Embeds `impl fmt::Display for TwitterErrors` (lines 38-50). -/
def TwitterErrors.fmt (t : TwitterErrors) (f : Formatter) :
    Formatter × Except FmtError Unit :=
  fmtErrorsLoop true t.errors f

/-- The rendered text of a collection: what `format!` collects after running
the Display impl on an empty sink. -/
def TwitterErrors.display (t : TwitterErrors) : String :=
  (t.fmt ⟨""⟩).1.out

/-! ## Media processing errors (src/error.rs lines 70-93) -/

/-- Embeds `MediaError`: a numeric code, a short name and a message. -/
structure MediaError where
  code : Int
  name : String
  message : String
deriving DecidableEq, Repr

/-- A shallow embedding of `rustc_serialize::json::Json` values, restricted
to the shapes the claims exercise (numbers are collapsed to integers; the
floating-point constructor of the source library is out of scope). -/
inductive Json where
  | null
  | boolean (b : Bool)
  | number (n : Int)
  | str (s : String)
  | array (items : List Json)
  | object (fields : List (String × Json))
deriving Repr

/-- Embeds `Json::find`: key lookup on an object, `None` on any other
shape. -/
def Json.find : Json → String → Option Json
  | Json.object fields, key => fields.lookup key
  | _, _ => none

/-! ## External low-level failure types (collaborators)

The wrapped error types come from external crates (hyper, native_tls, libstd,
rustc_serialize, chrono); their internals are outside this layer's scope.
Each is embedded as a distinct opaque record carrying the single-line text
its own Display impl would produce, which is all this layer ever does with
them besides storing and returning them. -/

/-- Embeds `hyper::error::Error` (transport failure), as an opaque value
with its rendered text. -/
structure HyperError where
  msg : String
deriving DecidableEq, Repr

/-- Embeds `native_tls::Error` (TLS failure). -/
structure TlsError where
  msg : String
deriving DecidableEq, Repr

/-- Embeds `std::io::Error` (local stream failure). -/
structure IoError where
  msg : String
deriving DecidableEq, Repr

/-- Embeds `rustc_serialize::json::ParserError` (JSON tokenization
failure). -/
structure ParserError where
  msg : String
deriving DecidableEq, Repr

/-- Embeds `rustc_serialize::json::DecoderError` (JSON structural decode
failure). -/
structure DecoderError where
  msg : String
deriving DecidableEq, Repr

/-- Embeds `chrono::ParseError` (timestamp parse failure). -/
structure ChronoParseError where
  msg : String
deriving DecidableEq, Repr

/-! ## The unified Error enum (src/error.rs lines 95-149) -/

/-- Embeds the `Error` enum: one constructor per source variant, in source
order, with the payload types embedded as above.  `i32` payloads become
`Int`; the `hyper::StatusCode` payload becomes its numeric code. -/
inductive Error where
  | BadUrl
  | InvalidResponse (err : String) (ext : Option String)
  | MissingValue (val : String)
  | FutureAlreadyCompleted
  | TwitterError (errs : TwitterErrors)
  | RateLimit (ts : Int)
  | MediaError (err : MediaError)
  | BadStatus (code : Nat)
  | NetError (err : HyperError)
  | TlsError (err : TlsError)
  | IOError (err : IoError)
  | JSONError (err : ParserError)
  | DecodeError (err : DecoderError)
  | TimestampParseError (err : ChronoParseError)
deriving DecidableEq, Repr

/-! ## Field helpers and the media-error parser -/

/-- Modelled from the spec: the `field_present!` macro of the missing
`common` module.  Section 4.1 requires the parser to fail with
`MissingValue` naming the field when the field is absent from the decoded
object. -/
def fieldPresent (input : Json) (name : String) : Except Error Unit :=
  match input.find name with
  | some _ => Except.ok ()
  | none => Except.error (Error.MissingValue name)

/-- Modelled from the spec: the `field` helper of the missing `common`
module, at type i32.  Section 4.1: a field succeeds only when present with
the expected scalar type, and otherwise the parser fails with `MissingValue`
naming the field. -/
def fieldI32 (input : Json) (name : String) : Except Error Int :=
  match input.find name with
  | some (Json.number n) => Except.ok n
  | _ => Except.error (Error.MissingValue name)

/-- Modelled from the spec: the `field` helper of the missing `common`
module, at type String. -/
def fieldString (input : Json) (name : String) : Except Error String :=
  match input.find name with
  | some (Json.str s) => Except.ok s
  | _ => Except.error (Error.MissingValue name)

/-- Embeds `MediaError::from_json` (lines 81-93): three `field_present!`
checks in source order (code, name, message), each propagated immediately,
then the three typed extractions, each propagated with `try!`. -/
def MediaError.from_json (input : Json) : Except Error MediaError := do
  fieldPresent input "code"
  fieldPresent input "name"
  fieldPresent input "message"
  let code ← fieldI32 input "code"
  let name ← fieldString input "name"
  let message ← fieldString input "message"
  pure { code := code, name := name, message := message }

/-! ## Display for Error (src/error.rs lines 151-170) -/

/-- Rust's Debug escaping for one character of a string payload, restricted
to the escapes that can affect the claims here: quote, backslash and the
common control characters are written as two-character escape sequences,
every other character is written as itself. -/
def escapeDebugChar (c : Char) : String :=
  if c = '"' then "\\\""
  else if c = '\\' then "\\\\"
  else if c = '\n' then "\\n"
  else if c = '\r' then "\\r"
  else if c = '\t' then "\\t"
  else String.singleton c

/-- Rust's Debug rendering of a String: quoted, with characters escaped. -/
def escapeDebugString (s : String) : String :=
  String.join (s.data.map escapeDebugChar)

/-- Rust's Debug rendering of an `Option<String>` payload, as printed by
the `InvalidResponse` arm of the Display impl. -/
def debugOptString : Option String → String
  | none => "None"
  | some s => "Some(\"" ++ escapeDebugString s ++ "\")"

/-- Embeds `impl Display for Error` (lines 151-170), arm by arm in source
order.  Numeric payloads render through `repr` exactly as Rust's integer
Display; the `BadStatus` arm renders the numeric status code (the canonical
reason phrase hyper appends contains no newline and carries no extra
information for the properties proved here). -/
def Error.display : Error → String
  | Error.BadUrl => "URL given did not match API method"
  | Error.InvalidResponse err ext =>
    "Invalid response received: " ++ err ++ " (" ++ debugOptString ext ++ ")"
  | Error.MissingValue val => "Value missing from response: " ++ val
  | Error.FutureAlreadyCompleted => "Future has already been completed"
  | Error.TwitterError err =>
    "Error(s) returned from Twitter: " ++ TwitterErrors.display err
  | Error.RateLimit ts => "Rate limit reached, hold until " ++ Int.repr ts
  | Error.MediaError err => "Error processing media: " ++ err.message
  | Error.BadStatus val => "Error status received: " ++ Nat.repr val
  | Error.NetError err => "Network error: " ++ err.msg
  | Error.TlsError err => "TLS error: " ++ err.msg
  | Error.IOError err => "IO error: " ++ err.msg
  | Error.JSONError err => "JSON parse Error: " ++ err.msg
  | Error.DecodeError err => "JSON decode error: " ++ err.msg
  | Error.TimestampParseError err => "Error parsing timestamp: " ++ err.msg

/-! ## The cause accessor (src/error.rs lines 192-202) -/

/-- The borrowed trait object returned by `Error::cause`: which wrapped
low-level failure value the unified error holds. -/
inductive ErrorCause where
  | net (e : HyperError)
  | tls (e : TlsError)
  | io (e : IoError)
  | jsonParse (e : ParserError)
  | jsonDecode (e : DecoderError)
  | timestamp (e : ChronoParseError)
deriving DecidableEq, Repr

/-- Embeds `Error::cause` (lines 192-202): the six wrapped variants return
their payload, the wildcard arm returns `None`. -/
def Error.cause : Error → Option ErrorCause
  | Error.NetError err => some (ErrorCause.net err)
  | Error.TlsError err => some (ErrorCause.tls err)
  | Error.IOError err => some (ErrorCause.io err)
  | Error.JSONError err => some (ErrorCause.jsonParse err)
  | Error.DecodeError err => some (ErrorCause.jsonDecode err)
  | Error.TimestampParseError err => some (ErrorCause.timestamp err)
  | _ => none

/-- The discriminant of an `Error` value: which variant is active.  Used to
state that distinct failure kinds convert to distinct variants. -/
inductive ErrorKind where
  | badUrl
  | invalidResponse
  | missingValue
  | futureAlreadyCompleted
  | twitterError
  | rateLimit
  | mediaError
  | badStatus
  | netError
  | tlsError
  | ioError
  | jsonError
  | decodeError
  | timestampParseError
deriving DecidableEq, Repr

/-- The variant tag of an `Error` value. -/
def Error.kind : Error → ErrorKind
  | Error.BadUrl => ErrorKind.badUrl
  | Error.InvalidResponse _ _ => ErrorKind.invalidResponse
  | Error.MissingValue _ => ErrorKind.missingValue
  | Error.FutureAlreadyCompleted => ErrorKind.futureAlreadyCompleted
  | Error.TwitterError _ => ErrorKind.twitterError
  | Error.RateLimit _ => ErrorKind.rateLimit
  | Error.MediaError _ => ErrorKind.mediaError
  | Error.BadStatus _ => ErrorKind.badStatus
  | Error.NetError _ => ErrorKind.netError
  | Error.TlsError _ => ErrorKind.tlsError
  | Error.IOError _ => ErrorKind.ioError
  | Error.JSONError _ => ErrorKind.jsonError
  | Error.DecodeError _ => ErrorKind.decodeError
  | Error.TimestampParseError _ => ErrorKind.timestampParseError

/-! ## Provenance conversions (src/error.rs lines 205-239) -/

/-- Embeds `impl From for hyper errors` (lines 205-209). -/
def Error.fromHyperError (err : HyperError) : Error := Error.NetError err

/-- Embeds `impl From for native_tls errors` (lines 211-215). -/
def Error.fromTlsError (err : EggMode.TlsError) : Error := Error.TlsError err

/-- Embeds `impl From for io errors` (lines 217-221). -/
def Error.fromIoError (err : IoError) : Error := Error.IOError err

/-- Embeds `impl From for json ParserError` (lines 223-227). -/
def Error.fromParserError (err : ParserError) : Error := Error.JSONError err

/-- Embeds `impl From for json DecoderError` (lines 229-233). -/
def Error.fromDecoderError (err : DecoderError) : Error := Error.DecodeError err

/-- Embeds `impl From for chrono ParseError` (lines 235-239). -/
def Error.fromChronoParseError (err : ChronoParseError) : Error :=
  Error.TimestampParseError err

/-! ## The error classifier (spec sections 4.3 and 7)

The classifier entry point lives outside the provided source files; only its
contract survives in the source, as the doc comment of `Error::BadStatus`
(lines 124-131): the status code is only surfaced when Twitter did not also
return an error collection in the body, and that check runs before the
status check.  The definitions below are therefore modelled from the
specification. -/

/-- Modelled from the spec: the known rate-limit error code of section 4.3
step 1.  The spec leaves the number to the remote service's convention;
Twitter uses error code 88 for a reached rate limit. -/
def rateLimitErrorCode : Int := 88

/-- Does a collection carry the known rate-limit error code? -/
def TwitterErrors.hasRateLimitCode (t : TwitterErrors) : Bool :=
  t.errors.any (fun e => e.code == rateLimitErrorCode)

/-- Modelled from the spec: extraction of a usable Remote Error Collection
from the optional decoded body.  Sections 4.3 and 7: only a body that
decodes as a non-empty collection counts as extracted; an empty collection
falls through to the status-code check rather than crashing. -/
def extractErrors : Option TwitterErrors → Option TwitterErrors
  | some t => if t.errors.isEmpty then none else some t
  | none => none

/-- Modelled from the spec: the Error Classifier entry point of section 4.3,
absent from the provided source files.  Inputs per section 6: the numeric
status code, the optional decoded body, the optional rate-limit-reset header
value, and the caller-supplied context label and raw-body excerpt for the
`InvalidResponse` fallback.  Decision order, first match wins: a non-empty
extracted collection carrying the rate-limit code together with a reset
header yields `RateLimit`; any other non-empty extracted collection yields
`TwitterError`; otherwise a status outside 200-299 yields `BadStatus`; and
a success status with an unusable body yields `InvalidResponse`. -/
def classify (status : Nat) (body : Option TwitterErrors)
    (resetHeader : Option Int) (label : String) (rawExcerpt : Option String) :
    Error :=
  match extractErrors body with
  | some errs =>
    match resetHeader with
    | some ts =>
      if errs.hasRateLimitCode then Error.RateLimit ts
      else Error.TwitterError errs
    | none => Error.TwitterError errs
  | none =>
    if 200 ≤ status ∧ status ≤ 299 then Error.InvalidResponse label rawExcerpt
    else Error.BadStatus status

/-! ## Helper lemmas about the rendering loop -/

/-- The text contributed by every record after the first: each is preceded
by the comma-plus-newline separator. -/
def sepJoin (s : String) : List String → String
  | [] => ""
  | a :: as => s ++ a ++ sepJoin s as

theorem intercalate_go_eq (s : String) (l : List String) (acc : String) :
    String.intercalate.go acc s l = acc ++ sepJoin s l := by
  induction l generalizing acc with
  | nil => simp [String.intercalate.go, sepJoin]
  | cons a as ih =>
    simp [String.intercalate.go, sepJoin, ih, String.append_assoc]

theorem intercalate_eq_sepJoin (s : String) (a : String) (as : List String) :
    String.intercalate s (a :: as) = a ++ sepJoin s as := by
  simp [String.intercalate, intercalate_go_eq]

theorem fmtErrorsLoop_false_eq (l : List TwitterErrorCode) (f : Formatter) :
    fmtErrorsLoop false l f =
      (⟨f.out ++ sepJoin ",\n" (l.map TwitterErrorCode.display)⟩,
        Except.ok ()) := by
  induction l generalizing f with
  | nil => simp [fmtErrorsLoop, sepJoin]
  | cons e rest ih =>
    simp [fmtErrorsLoop, writeStr, sepJoin, ih, String.append_assoc]

theorem fmtErrorsLoop_true_cons (e : TwitterErrorCode)
    (rest : List TwitterErrorCode) (f : Formatter) :
    fmtErrorsLoop true (e :: rest) f =
      (⟨f.out ++ TwitterErrorCode.display e ++
          sepJoin ",\n" (rest.map TwitterErrorCode.display)⟩,
        Except.ok ()) := by
  simp [fmtErrorsLoop, writeStr, fmtErrorsLoop_false_eq, String.append_assoc]

theorem display_eq_intercalate (t : TwitterErrors) :
    TwitterErrors.display t =
      String.intercalate ",\n" (t.errors.map TwitterErrorCode.display) := by
  obtain ⟨l⟩ := t
  match l with
  | [] => rfl
  | e :: rest =>
    simp [TwitterErrors.display, TwitterErrors.fmt, fmtErrorsLoop_true_cons,
      intercalate_eq_sepJoin, String.append_assoc]

/-! ## Claims about the collection rendering -/

/-- Claim C4: rendering a Remote Error Collection prints each record as
hash-code-colon-message, joins the records with a comma followed by a
newline, preserves the original order and emits no trailing separator; the
two-record example collection renders exactly as stated in the spec. -/
theorem claim_C4_collection_rendering :
    (∀ t : TwitterErrors,
      TwitterErrors.display t =
        String.intercalate ",\n" (t.errors.map TwitterErrorCode.display)) ∧
    TwitterErrors.display
        ⟨[⟨"Sorry, that page does not exist", 34⟩,
          ⟨"You have been blocked", 136⟩]⟩ =
      "#34: Sorry, that page does not exist,\n#136: You have been blocked" :=
  ⟨display_eq_intercalate, by decide⟩

/-- Claim C7: the rendering of a Remote Error Collection is total: for
every collection, including the empty one, and every starting formatter
state, the formatting result is `Ok`. -/
theorem claim_C7_rendering_total (t : TwitterErrors) (f : Formatter) :
    (TwitterErrors.fmt t f).2 = Except.ok () := by
  obtain ⟨l⟩ := t
  match l with
  | [] => rfl
  | e :: rest => simp [TwitterErrors.fmt, fmtErrorsLoop_true_cons]

/-- Claim C9: the empty collection renders as the empty string, so the
unified error rendering of a `TwitterError` wrapping an empty collection is
exactly the literal prefix with nothing after it. -/
theorem claim_C9_empty_collection :
    TwitterErrors.display ⟨[]⟩ = "" ∧
    Error.display (Error.TwitterError ⟨[]⟩) =
      "Error(s) returned from Twitter: " :=
  ⟨rfl, rfl⟩

/-! ## Claims about the media-error parser -/

/-- Claim C5: on a decoded object missing at least one of the fields code,
name, message, the parser fails with `MissingValue` naming the first
missing field in the fixed check order code, name, message. -/
theorem claim_C5_first_missing_field (input : Json)
    (h : (input.find "code").isNone ∨ (input.find "name").isNone ∨
      (input.find "message").isNone) :
    MediaError.from_json input =
      Except.error (Error.MissingValue
        (if (input.find "code").isNone then "code"
         else if (input.find "name").isNone then "name"
         else "message")) := by
  rcases hc : input.find "code" with _ | jc <;>
    rcases hn : input.find "name" with _ | jn <;>
      rcases hm : input.find "message" with _ | jm <;>
        simp [MediaError.from_json, fieldPresent, fieldI32, fieldString,
          hc, hn, hm, Bind.bind, Except.bind] at h ⊢

/-- Witness for C5: an object with only a message field is missing both
code and name, and the parser reports code. -/
theorem claim_C5_first_missing_field_witness :
    ((Json.object [("message", Json.str "m")]).find "code").isNone = true ∧
    MediaError.from_json (Json.object [("message", Json.str "m")]) =
      Except.error (Error.MissingValue "code") :=
  ⟨rfl,
    claim_C5_first_missing_field (Json.object [("message", Json.str "m")])
      (Or.inl rfl)⟩

/-- Claim C6: on a decoded object carrying all three fields with the
expected scalar types, the parser succeeds and preserves the three field
values exactly. -/
theorem claim_C6_roundtrip (input : Json) (c : Int) (n m : String)
    (hc : input.find "code" = some (Json.number c))
    (hn : input.find "name" = some (Json.str n))
    (hm : input.find "message" = some (Json.str m)) :
    MediaError.from_json input = Except.ok ⟨c, n, m⟩ := by
  simp [MediaError.from_json, fieldPresent, fieldI32, fieldString, hc, hn,
    hm, Bind.bind, Except.bind, Functor.map, Except.map, pure, Except.pure]

/-- Witness for C6: a fully populated object parses to exactly its three
field values. -/
theorem claim_C6_roundtrip_witness :
    MediaError.from_json
        (Json.object [("code", Json.number 3), ("name", Json.str "n"),
          ("message", Json.str "m")]) =
      Except.ok ⟨3, "n", "m"⟩ :=
  claim_C6_roundtrip
    (Json.object [("code", Json.number 3), ("name", Json.str "n"),
      ("message", Json.str "m")])
    3 "n" "m" rfl rfl rfl

/-! ## Claims about provenance conversions and the cause accessor -/

/-- Claim C2: every lower-level failure value converts totally into the
unified error, the original value is recoverable unchanged through the
cause accessor, and the six conversion targets are pairwise distinct
variants. -/
theorem claim_C2_conversions_lossless_distinct (h : HyperError)
    (t : EggMode.TlsError) (i : IoError) (p : ParserError) (d : DecoderError)
    (c : ChronoParseError) :
    (Error.fromHyperError h).cause = some (ErrorCause.net h) ∧
    (Error.fromTlsError t).cause = some (ErrorCause.tls t) ∧
    (Error.fromIoError i).cause = some (ErrorCause.io i) ∧
    (Error.fromParserError p).cause = some (ErrorCause.jsonParse p) ∧
    (Error.fromDecoderError d).cause = some (ErrorCause.jsonDecode d) ∧
    (Error.fromChronoParseError c).cause = some (ErrorCause.timestamp c) ∧
    List.Pairwise (fun a b => a ≠ b)
      [(Error.fromHyperError h).kind, (Error.fromTlsError t).kind,
        (Error.fromIoError i).kind, (Error.fromParserError p).kind,
        (Error.fromDecoderError d).kind,
        (Error.fromChronoParseError c).kind] :=
  ⟨rfl, rfl, rfl, rfl, rfl, rfl, by
    simp only [Error.fromHyperError, Error.fromTlsError, Error.fromIoError,
      Error.fromParserError, Error.fromDecoderError,
      Error.fromChronoParseError, Error.kind]
    decide⟩

/-- Claim C3: the cause accessor returns the wrapped low-level failure for
each of the six wrapped variants, and returns nothing exactly on the pure
variants. -/
theorem claim_C3_cause_accessor :
    (∀ x, (Error.NetError x).cause = some (ErrorCause.net x)) ∧
    (∀ x, (Error.TlsError x).cause = some (ErrorCause.tls x)) ∧
    (∀ x, (Error.IOError x).cause = some (ErrorCause.io x)) ∧
    (∀ x, (Error.JSONError x).cause = some (ErrorCause.jsonParse x)) ∧
    (∀ x, (Error.DecodeError x).cause = some (ErrorCause.jsonDecode x)) ∧
    (∀ x, (Error.TimestampParseError x).cause =
      some (ErrorCause.timestamp x)) ∧
    (∀ e : Error, e.cause = none ↔
      e.kind ∈ [ErrorKind.badUrl, ErrorKind.invalidResponse,
        ErrorKind.missingValue, ErrorKind.futureAlreadyCompleted,
        ErrorKind.twitterError, ErrorKind.rateLimit, ErrorKind.mediaError,
        ErrorKind.badStatus]) := by
  refine ⟨fun x => rfl, fun x => rfl, fun x => rfl, fun x => rfl,
    fun x => rfl, fun x => rfl, fun e => ?_⟩
  cases e <;> simp [Error.cause, Error.kind]

/-- Claim C10: JSON tokenization failures and JSON structural-decode
failures convert to two distinct unified variants, so callers can
distinguish them by variant. -/
theorem claim_C10_json_two_variants (p : ParserError) (d : DecoderError) :
    Error.fromParserError p = Error.JSONError p ∧
    Error.fromDecoderError d = Error.DecodeError d ∧
    (Error.fromParserError p).kind ≠ (Error.fromDecoderError d).kind :=
  ⟨rfl, rfl, by
    simp only [Error.fromParserError, Error.fromDecoderError, Error.kind]
    decide⟩

/-! ## Claim about the classifier -/

/-- Claim C1: the classifier produces `BadStatus` carrying exactly the
response's status code, and does so precisely when no Remote Error
Collection could be extracted from the body and the status lies outside the
success range 200-299; in particular the body check precedes the status
check, since an extracted collection rules `BadStatus` out for every
status. -/
theorem claim_C1_badstatus_fallback (status : Nat)
    (body : Option TwitterErrors) (resetHeader : Option Int) (label : String)
    (rawExcerpt : Option String) (c : Nat) :
    classify status body resetHeader label rawExcerpt = Error.BadStatus c ↔
      extractErrors body = none ∧ ¬(200 ≤ status ∧ status ≤ 299) ∧
        c = status := by
  unfold classify
  cases hb : extractErrors body with
  | none =>
    by_cases hs : 200 ≤ status ∧ status ≤ 299 <;>
      simp [hs, eq_comm]
  | some errs =>
    cases resetHeader with
    | none => simp
    | some ts =>
      by_cases hr : errs.hasRateLimitCode <;> simp [hr]

/-! ## Newline analysis of the unified rendering -/

/-- Is a payload string free of newline characters? -/
def newlineFree (s : String) : Bool :=
  s.data.all (fun c => c != '\n')

theorem newlineFree_iff (s : String) :
    newlineFree s = true ↔ '\n' ∉ s.data := by
  simp only [newlineFree, List.all_eq_true, bne_iff_ne]
  constructor
  · intro h hmem
    exact h '\n' hmem rfl
  · intro h c hc he
    exact h (he ▸ hc)

/-- Every raw string payload that the Display impl prints verbatim: the
context label of `InvalidResponse` (its optional snippet is Debug-escaped),
the field name of `MissingValue`, the record messages of a wrapped
collection, the media message, and the rendered text of each wrapped
low-level failure.  Numeric payloads cannot contribute a newline. -/
def Error.payloadsNewlineFree : Error → Bool
  | Error.BadUrl => true
  | Error.InvalidResponse err _ => newlineFree err
  | Error.MissingValue val => newlineFree val
  | Error.FutureAlreadyCompleted => true
  | Error.TwitterError t => t.errors.all (fun e => newlineFree e.message)
  | Error.RateLimit _ => true
  | Error.MediaError m => newlineFree m.message
  | Error.BadStatus _ => true
  | Error.NetError e => newlineFree e.msg
  | Error.TlsError e => newlineFree e.msg
  | Error.IOError e => newlineFree e.msg
  | Error.JSONError e => newlineFree e.msg
  | Error.DecodeError e => newlineFree e.msg
  | Error.TimestampParseError e => newlineFree e.msg

theorem digitChar_ne_newline (n : Nat) : Nat.digitChar n ≠ '\n' := by
  rcases Nat.lt_or_ge n 16 with h | h
  · interval_cases n <;> decide
  · unfold Nat.digitChar
    repeat rw [if_neg (by omega)]
    decide

theorem toDigitsCore_mem (b fuel : Nat) :
    ∀ (n : Nat) (ds : List Char) (c : Char),
      c ∈ Nat.toDigitsCore b fuel n ds →
      c ∈ ds ∨ ∃ m, c = Nat.digitChar m := by
  induction fuel with
  | zero =>
    intro n ds c h
    simp only [Nat.toDigitsCore] at h
    exact Or.inl h
  | succ fuel ih =>
    intro n ds c h
    simp only [Nat.toDigitsCore] at h
    split at h
    · rcases List.mem_cons.mp h with h | h
      · exact Or.inr ⟨n % b, h⟩
      · exact Or.inl h
    · rcases ih (n / b) (Nat.digitChar (n % b) :: ds) c h with h | h
      · rcases List.mem_cons.mp h with h | h
        · exact Or.inr ⟨n % b, h⟩
        · exact Or.inl h
      · exact Or.inr h

theorem nat_repr_no_newline (n : Nat) : '\n' ∉ (Nat.repr n).data := by
  intro h
  have h' : '\n' ∈ Nat.toDigitsCore 10 (n + 1) n [] := h
  rcases toDigitsCore_mem 10 (n + 1) n [] '\n' h' with h'' | ⟨m, hm⟩
  · exact absurd h'' (List.not_mem_nil '\n')
  · exact digitChar_ne_newline m hm.symm

theorem int_repr_no_newline (i : Int) : '\n' ∉ (Int.repr i).data := by
  cases i with
  | ofNat n => exact nat_repr_no_newline n
  | negSucc n =>
    intro h
    have h' : '\n' ∈ ("-" ++ Nat.repr (n + 1)).data := h
    rw [String.data_append] at h'
    rcases List.mem_append.mp h' with h'' | h''
    · exact absurd h'' (by decide)
    · exact nat_repr_no_newline (n + 1) h''

theorem escapeDebugChar_no_newline (c : Char) :
    '\n' ∉ (escapeDebugChar c).data := by
  unfold escapeDebugChar
  repeat' split
  case _ => decide
  case _ => decide
  case _ => decide
  case _ => decide
  case _ => decide
  case _ h1 h2 h3 h4 h5 =>
    intro hmem
    have : (String.singleton c).data = [c] := rfl
    rw [this] at hmem
    rcases List.mem_singleton.mp hmem with h
    exact h3 h.symm

theorem escapeDebugString_no_newline (s : String) :
    '\n' ∉ (escapeDebugString s).data := by
  intro h
  rw [escapeDebugString, String.join_eq] at h
  simp only [List.map_map] at h
  rcases List.mem_flatten.mp h with ⟨l, hl, hc⟩
  rcases List.mem_map.mp hl with ⟨c, _, hc'⟩
  apply escapeDebugChar_no_newline c
  rw [← hc'] at hc
  simpa using hc

theorem debugOptString_no_newline (o : Option String) :
    '\n' ∉ (debugOptString o).data := by
  cases o with
  | none => decide
  | some s =>
    intro h
    have h' : '\n' ∈ ("Some(\"" ++ escapeDebugString s ++ "\")").data := h
    simp only [String.data_append, List.mem_append] at h'
    rcases h' with (h'' | h'') | h''
    · exact absurd h'' (by decide)
    · exact escapeDebugString_no_newline s h''
    · exact absurd h'' (by decide)

theorem append_no_newline {a b : String} (ha : '\n' ∉ a.data)
    (hb : '\n' ∉ b.data) : '\n' ∉ (a ++ b).data := by
  rw [String.data_append]
  intro h
  rcases List.mem_append.mp h with h | h
  · exact ha h
  · exact hb h

/-! ## Claims about the unified rendering being single-line -/

/-- Counterexample to claim C8 as stated: the unified rendering of a
`TwitterError` wrapping the spec's own two-record example collection
contains a newline character, because the collection rendering joins
records with a comma followed by a newline. -/
theorem claim_C8_counterexample :
    '\n' ∈ (Error.display (Error.TwitterError
      ⟨[⟨"Sorry, that page does not exist", 34⟩,
        ⟨"You have been blocked", 136⟩]⟩)).data := by decide

/-- Claim C8 as amended: for every unified error value none of whose
verbatim-printed payload strings contains a newline, the rendering contains
no newline character, unless the value is a `TwitterError` wrapping two or
more records, whose rendering contains the newline of each comma-newline
record separator. -/
theorem claim_C8_amended_single_line (e : Error)
    (hp : Error.payloadsNewlineFree e = true)
    (hs : ∀ t : TwitterErrors, e = Error.TwitterError t →
      t.errors.length ≤ 1) :
    '\n' ∉ (Error.display e).data := by
  cases e with
  | BadUrl => decide
  | FutureAlreadyCompleted => decide
  | InvalidResponse err ext =>
    simp only [Error.payloadsNewlineFree] at hp
    rw [newlineFree_iff] at hp
    exact append_no_newline
      (append_no_newline
        (append_no_newline (append_no_newline (by decide) hp) (by decide))
        (debugOptString_no_newline ext))
      (by decide)
  | MissingValue val =>
    simp only [Error.payloadsNewlineFree] at hp
    rw [newlineFree_iff] at hp
    exact append_no_newline (by decide) hp
  | TwitterError t =>
    obtain ⟨l⟩ := t
    have hlen := hs ⟨l⟩ rfl
    simp only [Error.payloadsNewlineFree, List.all_eq_true] at hp
    match l, hlen, hp with
    | [], _, _ =>
      exact append_no_newline (by decide) (by decide)
    | [e0], _, hp =>
      have hd : TwitterErrors.display ⟨[e0]⟩ = TwitterErrorCode.display e0 := by
        simp [TwitterErrors.display, TwitterErrors.fmt, fmtErrorsLoop_true_cons,
          sepJoin]
      have hmsg : '\n' ∉ e0.message.data := by
        rw [← newlineFree_iff]
        exact hp e0 (List.mem_singleton.mpr rfl)
      show '\n' ∉ ("Error(s) returned from Twitter: " ++
        TwitterErrors.display ⟨[e0]⟩).data
      rw [hd]
      unfold TwitterErrorCode.display
      exact append_no_newline (by decide)
        (append_no_newline
          (append_no_newline (append_no_newline (by decide)
            (int_repr_no_newline e0.code)) (by decide))
          hmsg)
    | e0 :: e1 :: rest, hlen, _ =>
      exact absurd hlen (by simp)
  | RateLimit ts =>
    exact append_no_newline (by decide) (int_repr_no_newline ts)
  | MediaError m =>
    simp only [Error.payloadsNewlineFree] at hp
    rw [newlineFree_iff] at hp
    exact append_no_newline (by decide) hp
  | BadStatus v =>
    exact append_no_newline (by decide) (nat_repr_no_newline v)
  | NetError err =>
    simp only [Error.payloadsNewlineFree] at hp
    rw [newlineFree_iff] at hp
    exact append_no_newline (by decide) hp
  | TlsError err =>
    simp only [Error.payloadsNewlineFree] at hp
    rw [newlineFree_iff] at hp
    exact append_no_newline (by decide) hp
  | IOError err =>
    simp only [Error.payloadsNewlineFree] at hp
    rw [newlineFree_iff] at hp
    exact append_no_newline (by decide) hp
  | JSONError err =>
    simp only [Error.payloadsNewlineFree] at hp
    rw [newlineFree_iff] at hp
    exact append_no_newline (by decide) hp
  | DecodeError err =>
    simp only [Error.payloadsNewlineFree] at hp
    rw [newlineFree_iff] at hp
    exact append_no_newline (by decide) hp
  | TimestampParseError err =>
    simp only [Error.payloadsNewlineFree] at hp
    rw [newlineFree_iff] at hp
    exact append_no_newline (by decide) hp

/-- Witness for the amended C8: a concrete `InvalidResponse` with
newline-free payloads renders without a newline. -/
theorem claim_C8_amended_single_line_witness :
    Error.payloadsNewlineFree (Error.InvalidResponse "ctx" (some "body")) =
      true ∧
    '\n' ∉ (Error.display
      (Error.InvalidResponse "ctx" (some "body"))).data :=
  ⟨by decide,
    claim_C8_amended_single_line (Error.InvalidResponse "ctx" (some "body"))
      (by decide) (fun t ht => Error.noConfusion ht)⟩

end EggMode
